import Mathlib

/-!
The Python binding layer of the DwarFS reader (pydwarfs).

A shallow embedding of `src/pydwarfs.cpp`: the `py_logger` trampoline, the
`py_filesystem` handle with its scoped teardown and its accessors, the
`block_range_future.get` binding and the `directory_view.__iter__` binding.

The DwarFS engine (`dwarfs::reader::filesystem_v2`), the C++ standard
library (`std::unique_ptr`, `std::future`) and pybind11 (`py::make_iterator`,
`py::print`) are not part of the binding's source; what the binding needs of
them is stated next to each definition.
-/

namespace pydwarfs

/-! ## Logger -/

/-- The enumeration `dwarfs::logger::level_type`, in the order in which the
binding exports its values (lines 171-179). -/
inductive level_type where
  | FATAL
  | ERROR
  | WARN
  | INFO
  | VERBOSE
  | DEBUG
  | TRACE
  deriving DecidableEq, Repr

/-- The numeric value of a level: the enumerators are numbered from zero. -/
def level_type.toNat : level_type → Nat
  | .FATAL => 0
  | .ERROR => 1
  | .WARN => 2
  | .INFO => 3
  | .VERBOSE => 4
  | .DEBUG => 5
  | .TRACE => 6

/-- The two logger policies `set_policy` chooses between. -/
inductive logger_policy where
  | debug_logger_policy
  | prod_logger_policy
  deriving DecidableEq, Repr

/-- The state of a `py_logger`: the private member `threshold_` and the policy
installed by the constructor. -/
structure py_logger where
  threshold_ : level_type
  policy : logger_policy
  deriving DecidableEq, Repr

/-- The default argument of the constructor, `level_type::INFO` (line 30). -/
def py_logger.default_threshold : level_type := level_type.INFO

/-- The constructor `py_logger::py_logger` (lines 30-37), bound with `py::init`
(line 168). -/
def py_logger.init (threshold : level_type) : py_logger :=
  if level_type.DEBUG.toNat ≤ threshold.toNat then
    { threshold_ := threshold, policy := logger_policy.debug_logger_policy }
  else
    { threshold_ := threshold, policy := logger_policy.prod_logger_policy }

/-- One call of the Python override of `write`: the four arguments the
trampoline passes on (line 46). -/
structure sink_call where
  level : level_type
  msg : String
  file : String
  line : Int
  deriving DecidableEq, Repr

/-- The method `py_logger::write` (lines 39-49). The sink is the Python
override reached through `PYBIND11_OVERRIDE_PURE`; it is represented by the
list of calls it has received so far, and `write` returns that list after the
call. -/
def py_logger.write (self : py_logger) (level : level_type) (msg : String)
    (file : String) (line : Int) (sink : List sink_call) : List sink_call :=
  if level.toNat ≤ self.threshold_.toNat ∨ level = level_type.FATAL then
    sink ++ [{ level := level, msg := msg, file := file, line := line }]
  else
    sink

/-! ## Values crossing the binding -/

/-- A byte of file content. -/
abbrev Byte := Fin 256

/-- A `py::object` as far as `exit` looks at it: either Python's `None` or
an object with the text `print` shows for it. -/
inductive py_object where
  | none
  | obj (str : String)
  deriving DecidableEq, Repr

/-- The test `py::object::is_none`. -/
def py_object.is_none : py_object → Bool
  | .none => true
  | .obj _ => false

/-- The text `py::print` shows for an object. -/
def py_object.to_str : py_object → String
  | .none => "None"
  | .obj s => s

/-- Modelled from the spec: the failure taxonomy of section 7; the exception
types of the engine are not part of the binding's source. -/
inductive error where
  | NotFound
  | NotADirectory
  | NotASymlink
  | InvalidArgument
  | Closed
  | IoFailure
  | VisitorAborted
  deriving DecidableEq, Repr

/-- The ways a call of the binding leaves defined C++ behaviour. -/
inductive undefined_behaviour where
  /-- Member access `fs_->` on a `std::unique_ptr` that holds no engine. -/
  | null_engine_pointer
  /-- A call of `std::future::get` on a future whose `valid()` is false. -/
  | future_without_state
  deriving DecidableEq, Repr

/-- What a call of a bound function does: it returns a value to Python, it
raises (a C++ exception translated by pybind11), or its behaviour is
undefined. -/
inductive outcome (α : Type) where
  | value (a : α)
  | raised (e : error)
  | undefined (u : undefined_behaviour)
  deriving DecidableEq, Repr

/-- The outcome of a call of an engine function that returns or throws. -/
def outcome.of_except {α : Type} : Except error α → outcome α
  | .ok a => outcome.value a
  | .error e => outcome.raised e

/-- The type `dr::fsinfo_options`: a feature set and a block access level,
both kept as numbers. -/
structure fsinfo_options where
  features : Nat
  block_access : Nat
  deriving DecidableEq, Repr

/-- The type `dr::inode_view`, identified by its inode number. -/
structure inode_view where
  inode_num : Nat
  deriving DecidableEq, Repr, Inhabited

/-- The type `dr::dir_entry_view`: a name and the inode it refers to. -/
structure dir_entry_view where
  name : String
  inode : inode_view
  deriving DecidableEq, Repr, Inhabited

/-- Modelled from the spec: `dr::directory_view` is declared by the engine;
section 3 describes it as an ordered, zero-based indexable sequence of entries
belonging to one directory inode, whose size is fixed when the view is
created. -/
structure directory_view where
  inode : Nat
  parent_inode : Nat
  entries : List dir_entry_view
  deriving DecidableEq, Repr

/-- The member `directory_view::entry_count`, bound as `size` (line 254). -/
def directory_view.entry_count (dv : directory_view) : Nat := dv.entries.length

/-- The member `directory_view::begin`: the position of the first entry. -/
def directory_view.begin_ (_dv : directory_view) : Nat := 0

/-- The member `directory_view::end`: the position after the last entry. -/
def directory_view.end_ (dv : directory_view) : Nat := dv.entries.length

/-- The enumeration `dr::readlink_mode`. -/
inductive readlink_mode where
  | raw
  | preferred
  | posix
  deriving DecidableEq, Repr

/-- A `nlohmann::json` document, kept as its text. -/
structure json where
  text : String
  deriving DecidableEq, Repr

/-- The function `nlohmann::json::parse` on the text the engine serialises. -/
def json.parse (s : String) : Except error json := .ok { text := s }

/-- The type `dwarfs::file_stat`, reduced to three of its fields. -/
structure file_stat where
  ino : Nat
  mode : Nat
  size : Nat
  deriving DecidableEq, Repr

/-- The type `dwarfs::vfs_stat` (lines 342-349). -/
structure vfs_stat where
  bsize : Nat
  frsize : Nat
  blocks : Nat
  files : Nat
  namemax : Nat
  readonly : Bool
  deriving DecidableEq, Repr, Inhabited

/-- The type `dwarfs::history` with its member `as_json`. -/
structure history where
  as_json : json
  deriving DecidableEq, Repr

/-- The type `dr::block_range`: a contiguous run of bytes. -/
structure block_range where
  data : List Byte
  deriving DecidableEq, Repr

/-- The member `block_range::size`. -/
def block_range.size (br : block_range) : Nat := br.data.length

/-- The type `std::future<dr::block_range>`. A future either refers to a
shared state, whose result is a block range or an exception, or it refers to
none (`valid()` is false). -/
inductive block_range_future where
  | shared_state (result : Except error block_range)
  | no_state
  deriving Repr

/-! ## The engine -/

/-- The engine `dr::filesystem_v2` as the binding uses it. The engine is an
external library: each member function the accessors forward to is a field,
and a call of it returns or throws.

Modelled from the spec: file content is kept as `chunks`, which gives for the
inode of a file the block segments that make up its content, in order (the
glossary's block ranges); `read_string` and `readv` below are defined on it
after section 4.5. -/
structure filesystem_v2 where
  chunks : Nat → Option (List (List Byte))
  dump : fsinfo_options → Except error String
  root : Except error dir_entry_view
  find : String → Except error (Option dir_entry_view)
  open_ : inode_view → Except error Int
  opendir : inode_view → Except error (Option directory_view)
  readdir : directory_view → Nat → Except error (Option dir_entry_view)
  dirsize : directory_view → Except error Nat
  walk : (dir_entry_view → Except error Unit) → Except error Unit
  walk_data_order : (dir_entry_view → Except error Unit) → Except error Unit
  info_as_json : fsinfo_options → Except error json
  getattr : inode_view → Except error file_stat
  get_inode_info : inode_view → Except error json
  serialize_metadata_as_json : Bool → Except error String
  readlink : inode_view → readlink_mode → Except error String
  statvfs : vfs_stat → Except error vfs_stat
  get_history : Except error history

/-- The largest `size_t`, `std::numeric_limits<size_t>::max()`. -/
def size_t_max : Nat := 2 ^ 64 - 1

/-- The sum of two `size_t` values, computed in `size_t`. -/
def size_t_add (a b : Nat) : Nat := (a + b) % 2 ^ 64

/-- The value of an integer in `dwarfs::file_off_t`, a signed 64 bit offset
(two's complement). -/
def file_off_t_wrap (x : Int) : Int := (x + 2 ^ 63) % 2 ^ 64 - 2 ^ 63

/-- The sum of an offset and a size, computed in `dwarfs::file_off_t`. -/
def file_off_t_add (offset : Int) (size : Nat) : Int :=
  file_off_t_wrap (offset + (size : Int))

/-- Modelled from the spec: `filesystem_v2::read_string` belongs to the
engine. Section 4.5: it returns up to `size` bytes starting at `offset`, fewer
at the end of the file and none when the offset is beyond it; an invalid inode
or a negative offset fails with `InvalidArgument`. -/
def filesystem_v2.read_string (fs : filesystem_v2) (inode : Nat) (size : Nat)
    (offset : Int) : Except error (List Byte) :=
  match fs.chunks inode with
  | none => .error error.InvalidArgument
  | some cs =>
    if offset < 0 then .error error.InvalidArgument
    else .ok ((cs.flatten.drop offset.toNat).take size)

/-- The part of a request of `size` bytes at `offset` that falls into each
block segment of a file, in order: one piece per segment the request
touches. -/
def block_segments : List (List Byte) → Nat → Nat → List (List Byte)
  | [], _, _ => []
  | c :: cs, offset, size =>
    if size = 0 then []
    else if c.length ≤ offset then block_segments cs (offset - c.length) size
    else
      ((c.drop offset).take size) ::
        block_segments cs 0 (size - ((c.drop offset).take size).length)

/-- Modelled from the spec: `filesystem_v2::readv` belongs to the engine.
Section 4.5: it splits the requested range across the underlying storage
blocks and returns one future per block segment in request order, each
resolving to that segment's bytes; the range is validated as for
`read_string`. -/
def filesystem_v2.readv (fs : filesystem_v2) (inode : Nat) (size : Nat)
    (offset : Int) : Except error (List block_range_future) :=
  match fs.chunks inode with
  | none => .error error.InvalidArgument
  | some cs =>
    if offset < 0 then .error error.InvalidArgument
    else .ok ((block_segments cs offset.toNat size).map
      fun seg => block_range_future.shared_state (.ok { data := seg }))

/-! ## The filesystem handle -/

/-- The state of a `py_filesystem` (lines 153-156). The `std::unique_ptr`
member `fs_` either owns an engine or is null. -/
structure py_filesystem where
  logger_ : py_object
  os_access_ : py_object
  fs_ : Option filesystem_v2

/-- The member access `fs_->f(...)`: on a null pointer the behaviour is
undefined, otherwise the engine function is called. -/
def py_filesystem.arrow {α : Type} (self : py_filesystem)
    (f : filesystem_v2 → Except error α) : outcome α :=
  match self.fs_ with
  | none => outcome.undefined undefined_behaviour.null_engine_pointer
  | some fs => outcome.of_except (f fs)

/-- What a statement of `exit` does to the world outside the handle. -/
inductive exit_step where
  /-- The statement `fs_.reset()` (line 69). -/
  | fs_reset
  /-- A call of `py::print` with the texts of its arguments. -/
  | print (args : List String)
  deriving DecidableEq, Repr

/-- The method `py_filesystem::enter` (line 66): it returns the handle. -/
def py_filesystem.enter (self : py_filesystem) : py_filesystem := self

/-- The method `py_filesystem::exit` (lines 68-76): the handle after the call
and the statements executed, in order. `fs_.reset()` leaves the pointer null,
whether or not it held an engine. -/
def py_filesystem.exit (self : py_filesystem)
    (exc_type exc_value traceback : py_object) :
    py_filesystem × List exit_step :=
  let closed : py_filesystem := { self with fs_ := none }
  if exc_type.is_none then
    (closed, [exit_step.fs_reset])
  else
    (closed,
      [exit_step.fs_reset,
       exit_step.print ["Exception occurred, type: ", exc_type.to_str],
       exit_step.print ["Exception occurred, value: ", exc_value.to_str],
       exit_step.print ["Exception occurred, traceback: ", traceback.to_str]])

/-- The accessor `py_filesystem::dump` (lines 78-80). -/
def py_filesystem.dump (self : py_filesystem) (options : fsinfo_options) :
    outcome String :=
  self.arrow fun fs => fs.dump options

/-- The accessor `py_filesystem::root` (line 82). -/
def py_filesystem.root (self : py_filesystem) : outcome dir_entry_view :=
  self.arrow fun fs => fs.root

/-- The accessor `py_filesystem::find` (lines 84-86). -/
def py_filesystem.find (self : py_filesystem) (name : String) :
    outcome (Option dir_entry_view) :=
  self.arrow fun fs => fs.find name

/-- The accessor `py_filesystem::open` (line 88). -/
def py_filesystem.open_ (self : py_filesystem) (iv : inode_view) : outcome Int :=
  self.arrow fun fs => fs.open_ iv

/-- The accessor `py_filesystem::read` (lines 90-97). -/
def py_filesystem.read (self : py_filesystem) (inode : Nat) (size : Nat)
    (offset : Int) : outcome (List Byte) :=
  self.arrow fun fs => fs.read_string inode size offset

/-- The accessor `py_filesystem::readv` (lines 99-103). -/
def py_filesystem.readv (self : py_filesystem) (inode : Nat) (size : Nat)
    (offset : Int) : outcome (List block_range_future) :=
  self.arrow fun fs => fs.readv inode size offset

/-- The accessor `py_filesystem::opendir` (lines 105-107). -/
def py_filesystem.opendir (self : py_filesystem) (entry : inode_view) :
    outcome (Option directory_view) :=
  self.arrow fun fs => fs.opendir entry

/-- The accessor `py_filesystem::readdir` (lines 109-112). -/
def py_filesystem.readdir (self : py_filesystem) (dir : directory_view)
    (offset : Nat) : outcome (Option dir_entry_view) :=
  self.arrow fun fs => fs.readdir dir offset

/-- The accessor `py_filesystem::dirsize` (line 114). -/
def py_filesystem.dirsize (self : py_filesystem) (dir : directory_view) :
    outcome Nat :=
  self.arrow fun fs => fs.dirsize dir

/-- The accessor `py_filesystem::walk` (lines 116-118). -/
def py_filesystem.walk (self : py_filesystem)
    (func : dir_entry_view → Except error Unit) : outcome Unit :=
  self.arrow fun fs => fs.walk func

/-- The accessor `py_filesystem::walk_data_order` (lines 120-123). -/
def py_filesystem.walk_data_order (self : py_filesystem)
    (func : dir_entry_view → Except error Unit) : outcome Unit :=
  self.arrow fun fs => fs.walk_data_order func

/-- The accessor `py_filesystem::info` (lines 125-127). -/
def py_filesystem.info (self : py_filesystem) (options : fsinfo_options) :
    outcome json :=
  self.arrow fun fs => fs.info_as_json options

/-- The accessor `py_filesystem::getattr` (lines 129-131). -/
def py_filesystem.getattr (self : py_filesystem) (iv : inode_view) :
    outcome file_stat :=
  self.arrow fun fs => fs.getattr iv

/-- The accessor `py_filesystem::get_inode_info` (lines 133-135). -/
def py_filesystem.get_inode_info (self : py_filesystem) (iv : inode_view) :
    outcome json :=
  self.arrow fun fs => fs.get_inode_info iv

/-- The accessor `py_filesystem::get_metadata` (lines 137-139). -/
def py_filesystem.get_metadata (self : py_filesystem) : outcome json :=
  self.arrow fun fs => (fs.serialize_metadata_as_json true).bind json.parse

/-- The accessor `py_filesystem::readlink` (lines 141-143). -/
def py_filesystem.readlink (self : py_filesystem) (iv : inode_view)
    (mode : readlink_mode) : outcome String :=
  self.arrow fun fs => fs.readlink iv mode

/-- The accessor `py_filesystem::statvfs` (lines 145-149). -/
def py_filesystem.statvfs (self : py_filesystem) : outcome vfs_stat :=
  self.arrow fun fs => fs.statvfs default

/-- The accessor `py_filesystem::get_history` (line 151). -/
def py_filesystem.get_history (self : py_filesystem) : outcome json :=
  self.arrow fun fs => (fs.get_history).map fun h => h.as_json

/-- The default `size` of the bound `read` and `readv` (lines 373, 376). -/
def default_size : Nat := size_t_max

/-- The default `offset` of the bound `read` and `readv` (lines 374, 377). -/
def default_offset : Int := 0

/-! ## Futures -/

/-- The binding `block_range_future.get` (lines 330-334): the outcome of the
call and the future after it. `std::future::get` requires `valid()`, hands
out the result of the shared state (or rethrows its exception) and releases
the shared state, so that `valid()` is false afterwards. -/
def block_range_future.get (f : block_range_future) :
    outcome (List Byte) × block_range_future :=
  match f with
  | .shared_state (.ok br) =>
    (outcome.value (br.data.take br.size), block_range_future.no_state)
  | .shared_state (.error e) =>
    (outcome.raised e, block_range_future.no_state)
  | .no_state =>
    (outcome.undefined undefined_behaviour.future_without_state,
      block_range_future.no_state)

/-- One call of `get` on each future of a list, in the order of the list, and
the concatenation of the bytes returned; the first call that does not return
a value ends the sequence with its outcome. -/
def get_all : List block_range_future → outcome (List Byte)
  | [] => outcome.value []
  | f :: fs =>
    match (f.get).1 with
    | .value bs =>
      match get_all fs with
      | .value rest => outcome.value (bs ++ rest)
      | other => other
    | other => other

/-- Two reads one after the other, and the concatenation of what they
return; the first read that does not return a value ends the sequence with
its outcome. -/
def read_then (first second : outcome (List Byte)) : outcome (List Byte) :=
  match first with
  | .value a =>
    match second with
    | .value b => outcome.value (a ++ b)
    | other => other
  | other => other

/-! ## Iteration over a directory view -/

/-- The state `py::make_iterator` keeps (pybind11's `iterator_state`): the
current and the end iterator and the flag `first_or_done`. The iterators
point into the view, which `py::keep_alive<0, 1>` keeps alive. -/
structure iterator_state where
  view : directory_view
  it : Nat
  end_ : Nat
  first_or_done : Bool
  deriving DecidableEq, Repr

/-- The binding `directory_view.__iter__` (lines 255-260):
`py::make_iterator(dv.begin(), dv.end())`. -/
def directory_view.__iter__ (dv : directory_view) : iterator_state :=
  { view := dv, it := dv.begin_, end_ := dv.end_, first_or_done := true }

/-- What `__next__` of the iterator does: it returns an entry or raises
`StopIteration`. -/
inductive next_result where
  | item (e : dir_entry_view)
  | stop_iteration
  deriving DecidableEq, Repr

/-- The method `__next__` that `py::make_iterator` defines: advance unless this
is the first call, stop at the end iterator, otherwise return the entry the
iterator points to. -/
def iterator_state.__next__ (s : iterator_state) : next_result × iterator_state :=
  let s1 : iterator_state :=
    if s.first_or_done then { s with first_or_done := false }
    else { s with it := s.it + 1 }
  if s1.it = s1.end_ then
    (next_result.stop_iteration, { s1 with first_or_done := true })
  else
    (next_result.item (s1.view.entries.getD s1.it default), s1)

/-- A Python `for` loop over an iterator: `__next__` is called until it raises
`StopIteration`. The result is the sequence of entries and the final state, or
nothing when the fuel runs out first. -/
def iterate : Nat → iterator_state → Option (List dir_entry_view × iterator_state)
  | 0, _ => none
  | fuel + 1, s =>
    match s.__next__ with
    | (.stop_iteration, s1) => some ([], s1)
    | (.item e, s1) =>
      match iterate fuel s1 with
      | some (es, s2) => some (e :: es, s2)
      | none => none

/-! ## A small image -/

/-- An engine for an image whose only file, inode 1, holds "abcd" in the two
block segments "ab" and "cd"; inode 0 is the root directory. -/
def example_engine : filesystem_v2 where
  chunks := fun i => if i = 1 then some [[97, 98], [99, 100]] else none
  dump := fun _ => .ok "image"
  root := .ok { name := "", inode := { inode_num := 0 } }
  find := fun _ => .ok none
  open_ := fun iv => .ok (iv.inode_num : Int)
  opendir := fun _ => .ok none
  readdir := fun _ _ => .ok none
  dirsize := fun dv => .ok dv.entry_count
  walk := fun _ => .ok ()
  walk_data_order := fun _ => .ok ()
  info_as_json := fun _ => .ok { text := "" }
  getattr := fun iv => .ok { ino := iv.inode_num, mode := 0, size := 0 }
  get_inode_info := fun _ => .ok { text := "" }
  serialize_metadata_as_json := fun _ => .ok ""
  readlink := fun _ _ => .error error.NotASymlink
  statvfs := fun vs => .ok { vs with readonly := true }
  get_history := .ok { as_json := { text := "" } }

/-- An open handle on the small image. -/
def example_handle : py_filesystem :=
  { logger_ := py_object.obj "logger", os_access_ := py_object.obj "os_access",
    fs_ := some example_engine }

/-- A future whose shared state holds the block range "ab". -/
def example_future : block_range_future :=
  block_range_future.shared_state (.ok { data := [97, 98] })

/-- A directory view with two entries. -/
def example_view : directory_view :=
  { inode := 0, parent_inode := 0,
    entries := [{ name := "a", inode := { inode_num := 1 } },
                { name := "c", inode := { inode_num := 2 } }] }

/-! ## The logger: filtering and policy -/

/-- A list is never equal to itself with one more element. -/
theorem ne_append_singleton {α : Type} (xs : List α) (x : α) : xs ≠ xs ++ [x] := by
  intro h
  have hlen := congrArg List.length h
  simp at hlen

/-- Claim C8: for every logger, with threshold t, and every message of level l,
`write` passes exactly the call (level, message, file, line) on to the sink if
and only if l is numerically at most t or l is FATAL, and otherwise leaves the
sink as it was. -/
theorem C8_write_forwards_iff_level_le_threshold_or_fatal
    (lg : py_logger) (l : level_type) (msg file : String) (line : Int)
    (sink : List sink_call) :
    (lg.write l msg file line sink
        = sink ++ [{ level := l, msg := msg, file := file, line := line }]
      ↔ (l.toNat ≤ lg.threshold_.toNat ∨ l = level_type.FATAL))
    ∧ (¬ (l.toNat ≤ lg.threshold_.toNat ∨ l = level_type.FATAL)
      ↔ lg.write l msg file line sink = sink) := by
  unfold py_logger.write
  by_cases hc : l.toNat ≤ lg.threshold_.toNat ∨ l = level_type.FATAL
  · simp only [hc, if_true, true_iff, not_true_eq_false, false_iff, true_and]
    exact fun h => ne_append_singleton _ _ h.symm
  · simp only [hc, if_false, iff_false, not_false_eq_true, true_iff, and_true]
    exact ne_append_singleton _ _

/-- Claim C9: the constructor selects the policy from the threshold alone: the
debug policy if and only if the threshold is at least DEBUG, that is DEBUG or
TRACE, and the production policy otherwise, in particular for the default
threshold INFO; the policy is always one of the two and never both, and the
threshold is stored unchanged. -/
theorem C9_policy_selected_from_threshold (t : level_type) :
    ((py_logger.init t).policy = logger_policy.debug_logger_policy
      ↔ level_type.DEBUG.toNat ≤ t.toNat)
    ∧ (level_type.DEBUG.toNat ≤ t.toNat
      ↔ (t = level_type.DEBUG ∨ t = level_type.TRACE))
    ∧ ((py_logger.init t).policy = logger_policy.prod_logger_policy
      ↔ (t = level_type.FATAL ∨ t = level_type.ERROR ∨ t = level_type.WARN
          ∨ t = level_type.INFO ∨ t = level_type.VERBOSE))
    ∧ ((py_logger.init t).policy = logger_policy.debug_logger_policy
      ↔ (py_logger.init t).policy ≠ logger_policy.prod_logger_policy)
    ∧ (py_logger.init py_logger.default_threshold).policy
        = logger_policy.prod_logger_policy
    ∧ (py_logger.init t).threshold_ = t := by
  cases t <;> decide

/-- Claim C10: emission is monotone in the threshold: when a logger with
threshold t passes a message of level l on to the sink and t is at most the
threshold of a second logger, the second logger passes the same message on. -/
theorem C10_write_monotone_in_threshold
    (lg lg2 : py_logger) (l : level_type) (msg file : String) (line : Int)
    (sink : List sink_call)
    (hle : lg.threshold_.toNat ≤ lg2.threshold_.toNat)
    (hemit : lg.write l msg file line sink
      = sink ++ [{ level := l, msg := msg, file := file, line := line }]) :
    lg2.write l msg file line sink
      = sink ++ [{ level := l, msg := msg, file := file, line := line }] := by
  unfold py_logger.write at hemit ⊢
  by_cases hc : l.toNat ≤ lg.threshold_.toNat ∨ l = level_type.FATAL
  · have hc2 : l.toNat ≤ lg2.threshold_.toNat ∨ l = level_type.FATAL := by
      rcases hc with h | h
      · exact Or.inl (Nat.le_trans h hle)
      · exact Or.inr h
    simp only [hc2, if_true]
  · simp only [hc, if_false] at hemit
    exact absurd hemit (ne_append_singleton _ _)

/-- Claim C10 at a concrete input: a WARN message that threshold WARN lets
through is let through by threshold TRACE. -/
theorem C10_write_monotone_in_threshold_witness :
    (py_logger.init level_type.TRACE).write level_type.WARN "m" "f.cpp" 7 []
      = [] ++ [{ level := level_type.WARN, msg := "m", file := "f.cpp", line := 7 }] :=
  C10_write_monotone_in_threshold (py_logger.init level_type.WARN)
    (py_logger.init level_type.TRACE) level_type.WARN "m" "f.cpp" 7 []
    (by decide) (by decide)

/-! ## The handle: teardown -/

/-- Claim C2: teardown is idempotent: for every handle and every two triples
of arguments, a second `__exit__` after a first one leaves the handle exactly
as the first call left it, with the engine released. -/
theorem C2_exit_idempotent (h : py_filesystem)
    (exc_type exc_value traceback exc_type2 exc_value2 traceback2 : py_object) :
    ((h.exit exc_type exc_value traceback).1.exit exc_type2 exc_value2 traceback2).1
        = (h.exit exc_type exc_value traceback).1
    ∧ (h.exit exc_type exc_value traceback).1.fs_ = none
    ∧ ((h.exit exc_type exc_value traceback).1.exit
        exc_type2 exc_value2 traceback2).1.fs_ = none := by
  unfold py_filesystem.exit
  cases exc_type <;> cases exc_type2 <;> simp [py_object.is_none]

/-- Claim C3: `__exit__` always releases the engine, whether `exc_type` is
none or not; it prints the type, the value and the traceback exactly when
`exc_type` is not none; the release is the first statement executed, so the
printing comes after it; `__enter__` returns the handle itself. -/
theorem C3_exit_always_releases_and_reports_after
    (h : py_filesystem) (exc_type exc_value traceback : py_object) :
    (h.exit exc_type exc_value traceback).1.fs_ = none
    ∧ (h.exit exc_type exc_value traceback).2.head? = some exit_step.fs_reset
    ∧ ((h.exit exc_type exc_value traceback).2.tail
        = [exit_step.print ["Exception occurred, type: ", exc_type.to_str],
           exit_step.print ["Exception occurred, value: ", exc_value.to_str],
           exit_step.print ["Exception occurred, traceback: ", traceback.to_str]]
      ↔ exc_type.is_none = false)
    ∧ ((h.exit exc_type exc_value traceback).2.tail = []
      ↔ exc_type.is_none = true)
    ∧ h.enter = h := by
  unfold py_filesystem.exit py_filesystem.enter
  cases exc_type <;> simp [py_object.is_none]

/-! ## The handle: accessors after teardown -/

/-- After `exit` the engine pointer is null. -/
theorem exit_fs_none (h : py_filesystem) (a b c : py_object) :
    (h.exit a b c).1.fs_ = none := by
  unfold py_filesystem.exit
  cases a <;> simp [py_object.is_none]

/-- Member access through a null engine pointer is undefined, whatever the
engine function. -/
theorem arrow_of_fs_none {α : Type} (h : py_filesystem)
    (f : filesystem_v2 → Except error α) (hn : h.fs_ = none) :
    h.arrow f = outcome.undefined undefined_behaviour.null_engine_pointer := by
  unfold py_filesystem.arrow
  rw [hn]

/-- Claim C1, as stated, fails: on the small image, `dump` called after
`__exit__` does not fail with a Closed error; it goes through the null engine
pointer. -/
theorem C1_counterexample_dump_after_exit_not_closed :
    (example_handle.exit py_object.none py_object.none py_object.none).1.dump
        { features := 0, block_access := 0 }
      = outcome.undefined undefined_behaviour.null_engine_pointer
    ∧ (example_handle.exit py_object.none py_object.none py_object.none).1.dump
        { features := 0, block_access := 0 }
      ≠ outcome.raised error.Closed := by
  constructor
  · rfl
  · intro hc
    have hu : (example_handle.exit py_object.none py_object.none
        py_object.none).1.dump { features := 0, block_access := 0 }
          = outcome.undefined undefined_behaviour.null_engine_pointer := rfl
    rw [hu] at hc
    cases hc

/-- Claim C1, amended: for every handle and every accessor, a call made after
`__exit__` goes through the null engine pointer without a check: its behaviour
is undefined, it is not a Closed error, and it does not depend on the engine
the handle held, which is never consulted. -/
theorem C1_accessors_after_exit_dereference_null
    (h : py_filesystem) (exc_type exc_value traceback : py_object) :
    (∀ o, (h.exit exc_type exc_value traceback).1.dump o
        = outcome.undefined undefined_behaviour.null_engine_pointer)
    ∧ (h.exit exc_type exc_value traceback).1.root
        = outcome.undefined undefined_behaviour.null_engine_pointer
    ∧ (∀ n, (h.exit exc_type exc_value traceback).1.find n
        = outcome.undefined undefined_behaviour.null_engine_pointer)
    ∧ (∀ iv, (h.exit exc_type exc_value traceback).1.open_ iv
        = outcome.undefined undefined_behaviour.null_engine_pointer)
    ∧ (∀ i sz off, (h.exit exc_type exc_value traceback).1.read i sz off
        = outcome.undefined undefined_behaviour.null_engine_pointer)
    ∧ (∀ i sz off, (h.exit exc_type exc_value traceback).1.readv i sz off
        = outcome.undefined undefined_behaviour.null_engine_pointer)
    ∧ (∀ iv, (h.exit exc_type exc_value traceback).1.opendir iv
        = outcome.undefined undefined_behaviour.null_engine_pointer)
    ∧ (∀ dv off, (h.exit exc_type exc_value traceback).1.readdir dv off
        = outcome.undefined undefined_behaviour.null_engine_pointer)
    ∧ (∀ dv, (h.exit exc_type exc_value traceback).1.dirsize dv
        = outcome.undefined undefined_behaviour.null_engine_pointer)
    ∧ (∀ func, (h.exit exc_type exc_value traceback).1.walk func
        = outcome.undefined undefined_behaviour.null_engine_pointer)
    ∧ (∀ func, (h.exit exc_type exc_value traceback).1.walk_data_order func
        = outcome.undefined undefined_behaviour.null_engine_pointer)
    ∧ (∀ o, (h.exit exc_type exc_value traceback).1.info o
        = outcome.undefined undefined_behaviour.null_engine_pointer)
    ∧ (∀ iv, (h.exit exc_type exc_value traceback).1.getattr iv
        = outcome.undefined undefined_behaviour.null_engine_pointer)
    ∧ (∀ iv, (h.exit exc_type exc_value traceback).1.get_inode_info iv
        = outcome.undefined undefined_behaviour.null_engine_pointer)
    ∧ (h.exit exc_type exc_value traceback).1.get_metadata
        = outcome.undefined undefined_behaviour.null_engine_pointer
    ∧ (∀ iv m, (h.exit exc_type exc_value traceback).1.readlink iv m
        = outcome.undefined undefined_behaviour.null_engine_pointer)
    ∧ (h.exit exc_type exc_value traceback).1.statvfs
        = outcome.undefined undefined_behaviour.null_engine_pointer
    ∧ (h.exit exc_type exc_value traceback).1.get_history
        = outcome.undefined undefined_behaviour.null_engine_pointer := by
  have hn := exit_fs_none h exc_type exc_value traceback
  refine ⟨?_, ?_, ?_, ?_, ?_, ?_, ?_, ?_, ?_, ?_, ?_, ?_, ?_, ?_, ?_, ?_, ?_, ?_⟩
  all_goals first
    | exact arrow_of_fs_none _ _ hn
    | (intro _; exact arrow_of_fs_none _ _ hn)
    | (intro _ _; exact arrow_of_fs_none _ _ hn)
    | (intro _ _ _; exact arrow_of_fs_none _ _ hn)

/-! ## Futures: a second `get` -/

/-- Claim C6, as stated, fails: the first `get` on a resolved future returns
its bytes, and a second `get` on the same future does not return them again;
the future has no shared state any more. -/
theorem C6_counterexample_second_get_not_cached :
    (example_future.get).1 = outcome.value [97, 98]
    ∧ ((example_future.get).2.get).1
      = outcome.undefined undefined_behaviour.future_without_state
    ∧ ((example_future.get).2.get).1 ≠ (example_future.get).1 := by
  refine ⟨rfl, rfl, ?_⟩
  intro hc
  have h1 : (example_future.get).1 = outcome.value [97, 98] := rfl
  have h2 : ((example_future.get).2.get).1
      = outcome.undefined undefined_behaviour.future_without_state := rfl
  rw [h1, h2] at hc
  cases hc

/-- Claim C6, amended: the first `get` on a future whose shared state holds a
block range returns the bytes of that range and leaves the future without
shared state; every `get` leaves the future without shared state, and a
second `get` on the same future is a call on a future without shared state,
which is undefined and returns no cached result. -/
theorem C6_get_resolves_once (br : block_range) (f : block_range_future) :
    ((block_range_future.shared_state (.ok br)).get).1 = outcome.value br.data
    ∧ ((block_range_future.shared_state (.ok br)).get).2
      = block_range_future.no_state
    ∧ (f.get).2 = block_range_future.no_state
    ∧ ((f.get).2.get).1
      = outcome.undefined undefined_behaviour.future_without_state
    ∧ ((f.get).2.get).2 = block_range_future.no_state := by
  have hno : (f.get).2 = block_range_future.no_state := by
    unfold block_range_future.get
    cases f with
    | shared_state r => cases r <;> rfl
    | no_state => rfl
  refine ⟨?_, rfl, hno, ?_, ?_⟩
  · simp [block_range_future.get, block_range.size]
  · rw [hno]; rfl
  · rw [hno]; rfl

/-! ## Iteration over a directory view -/

/-- From a position inside the view, after at least one call of `__next__`,
the loop yields the entries behind that position and stops at the end. -/
theorem iterate_from (dv : directory_view) (k : Nat) :
    ∀ (n i : Nat), i + 1 + n = dv.entries.length →
      iterate (k + n + 1)
          { view := dv, it := i, end_ := dv.entries.length, first_or_done := false }
        = some (dv.entries.drop (i + 1),
            { view := dv, it := dv.entries.length, end_ := dv.entries.length,
              first_or_done := true }) := by
  intro n
  induction n with
  | zero =>
    intro i hi
    have hi2 : i + 1 = dv.entries.length := by omega
    simp [iterate, iterator_state.__next__, hi2]
  | succ n ih =>
    intro i hi
    have hlt : i + 1 < dv.entries.length := by omega
    have hne : ¬ (i + 1 = dv.entries.length) := by omega
    have hrec := ih (i + 1) (by omega)
    have hfuel : k + (n + 1) + 1 = (k + n + 1) + 1 := by omega
    rw [hfuel, iterate]
    simp only [iterator_state.__next__, Bool.false_eq_true, if_false, hne]
    rw [hrec]
    simp only [List.getD_eq_getElem _ _ hlt]
    rw [List.drop_eq_getElem_cons hlt]

/-- Claim C7: iteration over a directory view is restartable: every `__iter__`
starts a fresh iteration at the first entry; run to `StopIteration` it yields
the entries of the view in order, as many as `size()` reports, and leaves the
view as it was, so a second iteration of the same view yields the same
sequence. -/
theorem C7_directory_view_iteration_restartable (dv : directory_view) (k : Nat) :
    (dv.__iter__).it = dv.begin_
    ∧ (dv.__iter__).end_ = dv.end_
    ∧ iterate (k + dv.entry_count + 1) dv.__iter__
      = some (dv.entries,
          { view := dv, it := dv.end_, end_ := dv.end_, first_or_done := true })
    ∧ dv.entries.length = dv.entry_count
    ∧ iterate (k + dv.entry_count + 1)
        ({ view := dv, it := dv.end_, end_ := dv.end_,
           first_or_done := true } : iterator_state).view.__iter__
      = some (dv.entries,
          { view := dv, it := dv.end_, end_ := dv.end_, first_or_done := true }) := by
  have hrun : iterate (k + dv.entry_count + 1) dv.__iter__
      = some (dv.entries,
          { view := dv, it := dv.end_, end_ := dv.end_, first_or_done := true }) := by
    unfold directory_view.__iter__ directory_view.begin_ directory_view.end_
      directory_view.entry_count
    cases hlen : dv.entries.length with
    | zero =>
      have hnil : dv.entries = [] := List.length_eq_zero.mp hlen
      simp [iterate, iterator_state.__next__, hlen, hnil]
    | succ m =>
      have hpos : 0 < dv.entries.length := by omega
      have hfuel : k + (m + 1) + 1 = (k + m + 1) + 1 := by omega
      rw [hfuel, iterate]
      have hrec := iterate_from dv k m 0 (by omega)
      rw [hlen] at hrec
      simp only [iterator_state.__next__, if_true]
      have hne : ¬ (0 = m + 1) := by omega
      simp only [hne, if_false]
      rw [hrec]
      simp only [List.getD_eq_getElem _ _ hpos]
      rw [← List.drop_eq_getElem_cons hpos]
      simp
  exact ⟨rfl, rfl, hrun, rfl, hrun⟩

/-! ## Reading: `read` against `readv` -/

/-- The pieces `block_segments` cuts a request into, put together, are the
bytes of the requested range. -/
theorem flatten_block_segments (cs : List (List Byte)) :
    ∀ (offset size : Nat),
      (block_segments cs offset size).flatten
        = (cs.flatten.drop offset).take size := by
  induction cs with
  | nil => intro offset size; simp [block_segments]
  | cons c cs ih =>
    intro offset size
    unfold block_segments
    by_cases hs : size = 0
    · simp [hs]
    · simp only [hs, if_false]
      by_cases hc : c.length ≤ offset
      · simp only [hc, if_true]
        rw [ih, List.flatten_cons, List.drop_append_eq_append_drop,
          List.drop_eq_nil_of_le hc, List.nil_append]
      · simp only [hc, if_false]
        have hz : offset - c.length = 0 := by omega
        rw [List.flatten_cons, ih, List.flatten_cons,
          List.drop_append_eq_append_drop, hz, List.drop_zero,
          List.take_append_eq_append_take]
        congr 1
        congr 1
        simp only [List.length_take, List.length_drop]
        omega

/-- Resolving, in order, the futures `readv` builds from a list of pieces
returns the pieces put together. -/
theorem get_all_of_segments (segs : List (List Byte)) :
    get_all (segs.map
        fun seg => block_range_future.shared_state (.ok { data := seg }))
      = outcome.value segs.flatten := by
  induction segs with
  | nil => rfl
  | cons seg segs ih =>
    simp only [List.map_cons, get_all, block_range_future.get, block_range.size,
      List.take_length, ih, List.flatten_cons]

/-- Claim C4: for every open handle and every file inode, `read` with the
default arguments returns bytes, `readv` with the default arguments returns
futures, and `get` on each future in the returned order, concatenated, gives
exactly the bytes `read` returns. -/
theorem C4_read_equals_concatenated_readv
    (h : py_filesystem) (fs : filesystem_v2) (f : Nat) (cs : List (List Byte))
    (hopen : h.fs_ = some fs) (hfile : fs.chunks f = some cs) :
    ∃ (futs : List block_range_future) (bs : List Byte),
      h.readv f default_size default_offset = outcome.value futs
      ∧ h.read f default_size default_offset = outcome.value bs
      ∧ get_all futs = outcome.value bs := by
  refine ⟨(block_segments cs 0 default_size).map
      (fun seg => block_range_future.shared_state (.ok { data := seg })),
    (cs.flatten.drop 0).take default_size, ?_, ?_, ?_⟩
  · simp [py_filesystem.readv, py_filesystem.arrow, hopen, filesystem_v2.readv,
      hfile, default_offset, outcome.of_except]
  · simp [py_filesystem.read, py_filesystem.arrow, hopen,
      filesystem_v2.read_string, hfile, default_offset, outcome.of_except]
  · rw [get_all_of_segments, flatten_block_segments]

/-- Claim C4 on the small image: the file "abcd", stored as "ab" and "cd". -/
theorem C4_read_equals_concatenated_readv_witness :
    ∃ (futs : List block_range_future) (bs : List Byte),
      example_handle.readv 1 default_size default_offset = outcome.value futs
      ∧ example_handle.read 1 default_size default_offset = outcome.value bs
      ∧ get_all futs = outcome.value bs :=
  C4_read_equals_concatenated_readv example_handle example_engine 1
    [[97, 98], [99, 100]] rfl rfl

/-! ## Reading: adjacent ranges -/

/-- An offset and a size whose sum fits `dwarfs::file_off_t` add up without
wrapping. -/
theorem file_off_t_add_of_fits (offset : Int) (size : Nat)
    (hlo : -(2 ^ 63) ≤ offset) (hhi : offset + (size : Int) < 2 ^ 63) :
    file_off_t_add offset size = offset + (size : Int) := by
  unfold file_off_t_add file_off_t_wrap
  have h0 : (0 : Int) ≤ offset + (size : Int) + 2 ^ 63 := by omega
  have h1 : offset + (size : Int) + 2 ^ 63 < 2 ^ 64 := by omega
  rw [Int.emod_eq_of_lt h0 h1]
  omega

/-- Two sizes whose sum fits `size_t` add up without wrapping. -/
theorem size_t_add_of_fits (a b : Nat) (h : a + b < 2 ^ 64) :
    size_t_add a b = a + b := by
  unfold size_t_add
  exact Nat.mod_eq_of_lt h

/-- Claim C5, as stated, fails: on the file "abcd", with size 1, offset 0 and
size2 the default unbounded size, the two reads return "a" and "bcd", while
size + size2 wraps to 0 in `size_t` and the single read returns nothing. -/
theorem C5_counterexample_size_sum_wraps :
    size_t_add 1 size_t_max = 0
    ∧ read_then (example_handle.read 1 1 0)
        (example_handle.read 1 size_t_max (file_off_t_add 0 1))
      = outcome.value [97, 98, 99, 100]
    ∧ example_handle.read 1 (size_t_add 1 size_t_max) 0 = outcome.value []
    ∧ read_then (example_handle.read 1 1 0)
        (example_handle.read 1 size_t_max (file_off_t_add 0 1))
      ≠ example_handle.read 1 (size_t_add 1 size_t_max) 0 := by
  have hsum : size_t_add 1 size_t_max = 0 := by decide
  have hoff : file_off_t_add 0 1 = 1 := by decide
  have hleft : read_then (example_handle.read 1 1 0)
      (example_handle.read 1 size_t_max (file_off_t_add 0 1))
        = outcome.value [97, 98, 99, 100] := by
    rw [hoff]
    simp [read_then, py_filesystem.read, py_filesystem.arrow, example_handle,
      example_engine, filesystem_v2.read_string, outcome.of_except, size_t_max]
  have hright : example_handle.read 1 (size_t_add 1 size_t_max) 0
      = outcome.value [] := by
    rw [hsum]
    simp [py_filesystem.read, py_filesystem.arrow, example_handle,
      example_engine, filesystem_v2.read_string, outcome.of_except]
  refine ⟨hsum, hleft, hright, ?_⟩
  rw [hleft, hright]
  intro hc
  cases hc

/-- Claim C5, amended: for every open handle, every file inode, every offset
of type `dwarfs::file_off_t` and all sizes such that size + size2 fits
`size_t` and offset + size fits `dwarfs::file_off_t`, `read` of size bytes at
offset followed by `read` of size2 bytes at offset + size concatenates to
`read` of size + size2 bytes at offset; the latter returns the bytes of the
range when the offset is not negative and fails with InvalidArgument when it
is. -/
theorem C5_adjacent_reads_concatenate
    (h : py_filesystem) (fs : filesystem_v2) (f : Nat) (cs : List (List Byte))
    (size size2 : Nat) (offset : Int)
    (hopen : h.fs_ = some fs) (hfile : fs.chunks f = some cs)
    (hsize : size + size2 < 2 ^ 64)
    (hlo : -(2 ^ 63) ≤ offset) (hhi : offset + (size : Int) < 2 ^ 63) :
    read_then (h.read f size offset)
        (h.read f size2 (file_off_t_add offset size))
      = h.read f (size_t_add size size2) offset
    ∧ h.read f (size_t_add size size2) offset
      = (if offset < 0 then outcome.raised error.InvalidArgument
         else outcome.value ((cs.flatten.drop offset.toNat).take (size + size2))) := by
  rw [file_off_t_add_of_fits offset size hlo hhi, size_t_add_of_fits size size2 hsize]
  unfold py_filesystem.read py_filesystem.arrow filesystem_v2.read_string
  simp only [hopen, hfile]
  by_cases hneg : offset < 0
  · simp [hneg, outcome.of_except, read_then]
  · have hnn : ¬ (offset + (size : Int) < 0) := by omega
    have hto : (offset + (size : Int)).toNat = offset.toNat + size := by omega
    simp only [hneg, hnn, if_false, outcome.of_except, read_then, hto, and_true]
    rw [List.take_add, List.drop_drop]

/-- Claim C5 on the small image: 2 bytes at offset 1 followed by 1 byte at
offset 3 are the 3 bytes at offset 1 of "abcd". -/
theorem C5_adjacent_reads_concatenate_witness :
    read_then (example_handle.read 1 2 1)
        (example_handle.read 1 1 (file_off_t_add 1 2))
      = example_handle.read 1 (size_t_add 2 1) 1
    ∧ example_handle.read 1 (size_t_add 2 1) 1
      = (if (1 : Int) < 0 then outcome.raised error.InvalidArgument
         else outcome.value
          ((([[97, 98], [99, 100]] : List (List Byte)).flatten.drop
            (1 : Int).toNat).take (2 + 1))) :=
  C5_adjacent_reads_concatenate example_handle example_engine 1
    [[97, 98], [99, 100]] 2 1 1 rfl rfl (by decide) (by decide) (by decide)

end pydwarfs
